import Mathlib

/-!
Verification of the `monzo-webhook` repository: two Python command-line tools,
`scripts/delete_webhooks.py` and `scripts/register_webhooks.py`, that manage
webhook registrations against the Monzo API.

The scripts are shallowly embedded here.  Each HTTP endpoint's behaviour is an
oracle supplied by an environment record (a run of a tool is deterministic once
the environment — the credential variable, `sys.argv`, and every HTTP
response — is fixed).  A run of a tool is a pure function from the environment
to a run record: the control-flow outcome, the ordered trace of HTTP calls
made, and the lines written to standard error.  Python's `sys.exit(1)` is an
outcome with exit code 1; a plain `return` from `main` terminates the process
with exit code 0.
-/

/-- A JSON value, as produced by `response.json()`.  JSON numbers are modelled
as integers; none of the scripts' decisions depend on fractional values. -/
inductive Json where
  | null : Json
  | bool (b : Bool) : Json
  | num (n : Int) : Json
  | str (s : String) : Json
  | arr (elems : List Json) : Json
  | obj (fields : List (String × Json)) : Json

/-- Python truthiness of a JSON value (`if result:`): `None`, `False`, `0`,
`""`, `[]` and `{}` are falsy, everything else is truthy. -/
def Json.truthy : Json → Bool
  | .null => false
  | .bool b => b
  | .num n => n != 0
  | .str s => s != ""
  | .arr elems => !elems.isEmpty
  | .obj fields => !fields.isEmpty

/-- Field lookup in an association list, first match wins (keys of a Python
dict are unique, so the choice is immaterial). -/
def lookupField : List (String × Json) → String → Json → Json
  | [], _, d => d
  | (k, v) :: rest, key, d => if k = key then v else lookupField rest key d

/-- Python `dict.get(key, default)` on a JSON object.  The scripts only ever
call `.get` on values that are objects. -/
def Json.getD (j : Json) (key : String) (d : Json) : Json :=
  match j with
  | .obj fields => lookupField fields key d
  | _ => d

/-- An account as consumed by the scripts: `account.get("id")` and
`account.get("description", "Unknown")`. -/
structure Account where
  id : String
  description : String
deriving DecidableEq

/-- A webhook as consumed by the scripts: `webhook.get("id")` and
`webhook.get("url", "Unknown URL")`. -/
structure Webhook where
  id : String
  url : String
deriving DecidableEq

/-- One HTTP request issued by a tool, in the order the code makes them. -/
inductive HttpCall where
  | getAccounts : HttpCall
  | getWebhooks (account_id : String) : HttpCall
  | deleteCall (webhook_id : String) : HttpCall
  | postWebhook (account_id : String) (url : String) : HttpCall
deriving DecidableEq

/-- Body of a successful `GET /accounts` response: the `"accounts"` field if
present (`data.get("accounts", [])` supplies `[]` when it is missing). -/
structure AccountsResponse where
  accounts : Option (List Account)

/-- Body of a successful `GET /webhooks?account_id=...` response: the
`"webhooks"` field if present (`data.get("webhooks", [])`). -/
structure WebhooksResponse where
  webhooks : Option (List Webhook)

/-- A `requests.exceptions.RequestException` raised while registering a
webhook: either a transport failure with no response attached, or an HTTP
error whose response text is available for logging
(`e.response is not None`). -/
structure RegError where
  responseText : Option String

/-- The three remediation lines printed to standard error when
`MONZO_ACCESS_TOKEN` is unset or empty (identical in both scripts). -/
def tokenRemediation : List String :=
  ["Error: MONZO_ACCESS_TOKEN environment variable is not set",
   "\nPlease set your Monzo access token:",
   "  export MONZO_ACCESS_TOKEN=your_token_here"]

/-- `get_access_token` (identical in both scripts): reads the environment
variable (`none` when unset); `if not token:` treats an unset variable and an
empty string alike, printing the remediation lines and calling `sys.exit(1)`
(the `.error` branch); otherwise the token is returned. -/
def get_access_token (token : Option String) : Except (List String) String :=
  match token with
  | none => .error tokenRemediation
  | some t => if t = "" then .error tokenRemediation else .ok t

namespace DeleteWebhooks

/-- Environment of one run of `delete_webhooks.py`: the credential variable
and the oracle for each endpoint (`.error` is a raised
`RequestException` — transport failure or the non-2xx raised by
`raise_for_status`). -/
structure Env where
  token : Option String
  accountsResp : Except Unit AccountsResponse
  webhooksResp : String → Except Unit WebhooksResponse
  deleteResp : String → Except Unit Unit

/-- `list_accounts`: on success returns `data.get("accounts", [])`; on a
`RequestException` prints the error and calls `sys.exit(1)` (the `.error`
branch, carrying the stderr line). -/
def list_accounts (env : Env) : Except (List String) (List Account) :=
  match env.accountsResp with
  | .ok data => .ok (data.accounts.getD [])
  | .error _ => .error ["Error listing accounts"]

/-- `list_webhooks`: on success returns `data.get("webhooks", [])`; on a
`RequestException` logs the error and returns `[]` — non-fatal.  The second
component is the stderr output of the call. -/
def list_webhooks (env : Env) (account_id : String) : List Webhook × List String :=
  match env.webhooksResp account_id with
  | .ok data => (data.webhooks.getD [], [])
  | .error _ => ([], ["Error listing webhooks for account " ++ account_id])

/-- `delete_webhook`: `true` on a 2xx response, `false` (after logging) on a
`RequestException`. -/
def delete_webhook (env : Env) (webhook_id : String) : Bool × List String :=
  match env.deleteResp webhook_id with
  | .ok _ => (true, [])
  | .error _ => (false, ["Error deleting webhook " ++ webhook_id])

/-- Summary printed at the end of `main`: `total_webhooks`,
`deleted_webhooks`, and the failed line computed as
`total_webhooks - deleted_webhooks`. -/
structure Summary where
  totalFound : Nat
  deleted : Nat
  failed : Nat
deriving DecidableEq

/-- How a run of `delete_webhooks.py` ends. -/
inductive RunOutcome where
  | missingToken : RunOutcome
  | accountsError : RunOutcome
  | noAccounts : RunOutcome
  | done (s : Summary) : RunOutcome
deriving DecidableEq

/-- Process exit status for each outcome: `sys.exit(1)` for the two fatal
branches, normal interpreter exit (status 0) for an ordinary return from
`main` — including the `if not accounts: ... return` branch. -/
def RunOutcome.exitCode : RunOutcome → Nat
  | .missingToken => 1
  | .accountsError => 1
  | .noAccounts => 0
  | .done _ => 0

/-- A complete run: the outcome, the ordered HTTP calls made, and the lines
written to standard error. -/
structure Run where
  outcome : RunOutcome
  calls : List HttpCall
  errLines : List String
deriving DecidableEq

/-- The inner `for webhook in webhooks:` loop of `main`: one DELETE call per
webhook in order, `deleted_webhooks += 1` on success.  Returns the calls, the
stderr output, and the number of successful deletions. -/
def webhookLoop (env : Env) : List Webhook → List HttpCall × List String × Nat
  | [] => ([], [], 0)
  | w :: ws =>
    let (ok, errs) := delete_webhook env w.id
    let (calls, errs2, deleted) := webhookLoop env ws
    (HttpCall.deleteCall w.id :: calls, errs ++ errs2, (if ok then 1 else 0) + deleted)

/-- The outer `for account in accounts:` loop of `main`: list the account's
webhooks; `if not webhooks: continue`; otherwise `total_webhooks +=
len(webhooks)` and delete each one.  Returns calls, stderr, `total_webhooks`
and `deleted_webhooks` accumulated over the accounts. -/
def accountLoop (env : Env) : List Account → List HttpCall × List String × Nat × Nat
  | [] => ([], [], 0, 0)
  | a :: rest =>
    let (ws, errsL) := list_webhooks env a.id
    match ws with
    | [] =>
      let (calls, errs, total, deleted) := accountLoop env rest
      (HttpCall.getWebhooks a.id :: calls, errsL ++ errs, total, deleted)
    | w :: ws' =>
      let (dcalls, derrs, deletedHere) := webhookLoop env (w :: ws')
      let (calls, errs, total, deleted) := accountLoop env rest
      (HttpCall.getWebhooks a.id :: (dcalls ++ calls), errsL ++ (derrs ++ errs),
       (w :: ws').length + total, deletedHere + deleted)

/-- `main` of `delete_webhooks.py`: token, accounts (fatal on failure), early
return when no accounts, then the per-account loop and the summary. -/
def main (env : Env) : Run :=
  match get_access_token env.token with
  | .error errs => ⟨.missingToken, [], errs⟩
  | .ok _tok =>
    match list_accounts env with
    | .error errs => ⟨.accountsError, [HttpCall.getAccounts], errs⟩
    | .ok accounts =>
      match accounts with
      | [] => ⟨.noAccounts, [HttpCall.getAccounts], []⟩
      | a :: rest =>
        let (calls, errs, total, deleted) := accountLoop env (a :: rest)
        ⟨.done ⟨total, deleted, total - deleted⟩, HttpCall.getAccounts :: calls, errs⟩

end DeleteWebhooks

namespace RegisterWebhooks

/-- Environment of one run of `register_webhooks.py`: `sys.argv` (program
name included), the credential variable, and the endpoint oracles.  The
registration oracle is keyed by the `(account_id, url)` form body and yields
either the parsed JSON response of a 2xx reply or a raised
`RequestException`. -/
structure Env where
  argv : List String
  token : Option String
  accountsResp : Except Unit AccountsResponse
  registerResp : String → String → Except RegError Json

/-- Stderr lines of the `len(sys.argv) != 2` usage error. -/
def usageLines : List String :=
  ["Usage: python register_webhooks.py <webhook_url>",
   "\nExample:",
   "  python register_webhooks.py https://example.com/webhook"]

/-- `webhook_url.startswith(("http://", "https://"))`. -/
def isPrefixList : List Char → List Char → Bool
  | [], _ => true
  | _ :: _, [] => false
  | a :: as, b :: bs => a = b && isPrefixList as bs

/-- The literal scheme prefixes checked by `main`. -/
def httpPrefix : String := "http://"

/-- The literal scheme prefixes checked by `main`. -/
def httpsPrefix : String := "https://"

/-- `webhook_url.startswith(("http://", "https://"))`. -/
def startsWithHttpScheme (url : String) : Bool :=
  isPrefixList httpPrefix.toList url.toList || isPrefixList httpsPrefix.toList url.toList

/-- Characters of `urlparse(url).netloc`: the text after `//` up to (not
including) the first of `/`, `?` or `#`. -/
def netlocChars : List Char → List Char
  | [] => []
  | c :: cs => if c = '/' || c = '?' || c = '#' then [] else c :: netlocChars cs

/-- `urllib.parse.urlparse(webhook_url).netloc`, modelled for the URLs that
reach it in `main` — strings that begin with `http://` or `https://`, whose
scheme therefore ends at the first `:` and whose netloc is the text between
`//` and the first `/`, `?` or `#`.  (urlparse's `ValueError` branch for
mismatched IPv6 brackets also exits 1 in the script; it is not needed by any
claim, which only assert that a rejected URL exits non-zero.) -/
def netloc (url : String) : String :=
  if isPrefixList httpPrefix.toList url.toList then
    String.mk (netlocChars (url.toList.drop httpPrefix.length))
  else if isPrefixList httpsPrefix.toList url.toList then
    String.mk (netlocChars (url.toList.drop httpsPrefix.length))
  else ""

/-- `list_accounts` of `register_webhooks.py` (same behaviour as the deletion
tool's; this one passes `timeout=REQUEST_TIMEOUT`, which does not change the
response handling). -/
def list_accounts (env : Env) : Except (List String) (List Account) :=
  match env.accountsResp with
  | .ok data => .ok (data.accounts.getD [])
  | .error _ => .error ["Error listing accounts"]

/-- `register_webhook`: on a 2xx response returns `response.json()`; on a
`RequestException` logs the error — and `Response: <body>` when
`e.response is not None` — and returns `None`.  The second component is the
stderr output of the call. -/
def register_webhook (env : Env) (account_id url : String) : Option Json × List String :=
  match env.registerResp account_id url with
  | .ok body => (some body, [])
  | .error e =>
    (none,
     ("Error registering webhook for account " ++ account_id) ::
       (match e.responseText with
        | some t => ["Response: " ++ t]
        | none => []))

/-- How a run of `register_webhooks.py` ends. -/
inductive RunOutcome where
  | usageError : RunOutcome
  | invalidScheme : RunOutcome
  | invalidNetloc : RunOutcome
  | missingToken : RunOutcome
  | accountsError : RunOutcome
  | noAccounts : RunOutcome
  | done (registered failedCount : Nat) : RunOutcome
deriving DecidableEq

/-- Process exit status for each outcome: `sys.exit(1)` for the four
pre-flight errors and the accounts failure, normal return (status 0)
otherwise — including the `if not accounts: ... return` branch. -/
def RunOutcome.exitCode : RunOutcome → Nat
  | .usageError => 1
  | .invalidScheme => 1
  | .invalidNetloc => 1
  | .missingToken => 1
  | .accountsError => 1
  | .noAccounts => 0
  | .done _ _ => 0

/-- A complete run: the outcome, the ordered HTTP calls made, and the lines
written to standard error. -/
structure Run where
  outcome : RunOutcome
  calls : List HttpCall
  errLines : List String
deriving DecidableEq

/-- `if result:` on the value returned by `register_webhook`: `None` is
falsy, a JSON value by Python truthiness. -/
def optTruthy : Option Json → Bool
  | none => false
  | some j => j.truthy

/-- The `for account in accounts:` loop of `main`: one POST per account in
order; `registered_count += 1` when the result is truthy, else
`failed_count += 1`. -/
def accountLoop (env : Env) (url : String) :
    List Account → List HttpCall × List String × Nat × Nat
  | [] => ([], [], 0, 0)
  | a :: rest =>
    let (result, errs) := register_webhook env a.id url
    let (calls, errs2, reg, fail) := accountLoop env url rest
    (HttpCall.postWebhook a.id url :: calls, errs ++ errs2,
     (if optTruthy result then 1 else 0) + reg,
     (if optTruthy result then 0 else 1) + fail)

/-- `main` of `register_webhooks.py`: argument count, scheme prefix, netloc
validation, token, accounts (fatal on failure), early return when no
accounts, then the per-account registration loop and the summary. -/
def main (env : Env) : Run :=
  match env.argv with
  | [_prog, webhook_url] =>
    if !startsWithHttpScheme webhook_url then
      ⟨.invalidScheme, [], ["Error: Webhook URL must start with http:// or https://"]⟩
    else if netloc webhook_url = "" then
      ⟨.invalidNetloc, [], ["Error: Invalid webhook URL format"]⟩
    else
      match get_access_token env.token with
      | .error errs => ⟨.missingToken, [], errs⟩
      | .ok _tok =>
        match list_accounts env with
        | .error errs => ⟨.accountsError, [HttpCall.getAccounts], errs⟩
        | .ok accounts =>
          match accounts with
          | [] => ⟨.noAccounts, [HttpCall.getAccounts], []⟩
          | a :: rest =>
            let (calls, errs, reg, fail) := accountLoop env webhook_url (a :: rest)
            ⟨.done reg fail, HttpCall.getAccounts :: calls, errs⟩
  | _ => ⟨.usageError, [], usageLines⟩

end RegisterWebhooks

/-! ### Characterisations of the loops -/

/-- A list's length splits into the elements satisfying a Boolean predicate
and those refuting it. -/
theorem length_filter_split (p : α → Bool) (l : List α) :
    (l.filter p).length + (l.filter (fun x => !(p x))).length = l.length := by
  induction l with
  | nil => simp
  | cons x xs ih => cases h : p x <;> simp [h, ← ih] <;> omega

namespace DeleteWebhooks

/-- The webhooks `main` obtains for an account (second component of
`list_webhooks` is its stderr). -/
def wsOf (env : Env) (a : Account) : List Webhook :=
  (list_webhooks env a.id).1

/-- Whether the DELETE of a given webhook succeeds in this environment. -/
def delOk (env : Env) (w : Webhook) : Bool :=
  (delete_webhook env w.id).1

/-- Number of an account's webhooks whose deletion succeeds. -/
def okCount (env : Env) (a : Account) : Nat :=
  ((wsOf env a).filter (delOk env)).length

/-- Number of an account's webhooks whose deletion fails. -/
def failCnt (env : Env) (a : Account) : Nat :=
  ((wsOf env a).filter (fun w => !(delOk env w))).length

theorem webhookLoop_spec (env : Env) (ws : List Webhook) :
    webhookLoop env ws =
      (ws.map (fun w => HttpCall.deleteCall w.id),
       ws.flatMap (fun w => (delete_webhook env w.id).2),
       (ws.filter (delOk env)).length) := by
  induction ws with
  | nil => simp [webhookLoop]
  | cons w ws ih =>
    rcases h : delete_webhook env w.id with ⟨ok, errs⟩
    have hok : delOk env w = ok := by simp [delOk, h]
    cases ok <;> simp [webhookLoop, h, ih, hok, List.filter_cons, Nat.add_comm]

theorem del_accountLoop_spec (env : Env) (accs : List Account) :
    accountLoop env accs =
      (accs.flatMap (fun a =>
         HttpCall.getWebhooks a.id :: (wsOf env a).map (fun w => HttpCall.deleteCall w.id)),
       accs.flatMap (fun a =>
         (list_webhooks env a.id).2 ++
           (wsOf env a).flatMap (fun w => (delete_webhook env w.id).2)),
       (accs.map (fun a => (wsOf env a).length)).sum,
       (accs.map (okCount env)).sum) := by
  induction accs with
  | nil => simp [accountLoop]
  | cons a rest ih =>
    rcases hl : list_webhooks env a.id with ⟨ws, errsL⟩
    have hws : wsOf env a = ws := by simp [wsOf, hl]
    cases ws with
    | nil => simp [accountLoop, hl, ih, hws, okCount]
    | cons w ws' =>
      simp [accountLoop, hl, ih, hws, okCount, webhookLoop_spec]

/-- Total webhooks found split into deleted and failed, account by account. -/
theorem total_split (env : Env) (accs : List Account) :
    (accs.map (fun a => (wsOf env a).length)).sum =
      (accs.map (okCount env)).sum + (accs.map (failCnt env)).sum := by
  induction accs with
  | nil => simp
  | cons a rest ih =>
    have h := length_filter_split (delOk env) (wsOf env a)
    simp only [List.map_cons, List.sum_cons, ih, okCount, failCnt]
    omega

end DeleteWebhooks

namespace RegisterWebhooks

/-- Whether the registration attempt for an account is counted as
successful: the POST returned 2xx and its parsed body is truthy. -/
def regOk (env : Env) (url : String) (a : Account) : Bool :=
  optTruthy (register_webhook env a.id url).1

theorem reg_accountLoop_spec (env : Env) (url : String) (accs : List Account) :
    accountLoop env url accs =
      (accs.map (fun a => HttpCall.postWebhook a.id url),
       accs.flatMap (fun a => (register_webhook env a.id url).2),
       (accs.filter (regOk env url)).length,
       (accs.filter (fun a => !(regOk env url a))).length) := by
  induction accs with
  | nil => simp [accountLoop]
  | cons a rest ih =>
    rcases h : register_webhook env a.id url with ⟨result, errs⟩
    have hok : regOk env url a = optTruthy result := by simp [regOk, h]
    cases hr : optTruthy result <;>
      simp [accountLoop, h, ih, hok, hr, List.filter_cons, Nat.add_comm]

end RegisterWebhooks

/-! ### Characterisations of the `main` branches -/

namespace DeleteWebhooks

theorem del_main_missingToken (env : Env) (errs : List String)
    (h : get_access_token env.token = .error errs) :
    main env = ⟨.missingToken, [], errs⟩ := by
  unfold main; rw [h]

theorem del_main_accountsError (env : Env) (tok : String) (e : Unit)
    (h1 : get_access_token env.token = .ok tok)
    (h2 : env.accountsResp = .error e) :
    main env = ⟨.accountsError, [HttpCall.getAccounts], ["Error listing accounts"]⟩ := by
  have h2' : list_accounts env = .error ["Error listing accounts"] := by
    simp [list_accounts, h2]
  unfold main; rw [h1, h2']

theorem del_main_noAccounts (env : Env) (tok : String)
    (h1 : get_access_token env.token = .ok tok)
    (h2 : list_accounts env = .ok []) :
    main env = ⟨.noAccounts, [HttpCall.getAccounts], []⟩ := by
  unfold main; rw [h1, h2]

theorem del_main_done (env : Env) (tok : String) (a : Account) (rest : List Account)
    (h1 : get_access_token env.token = .ok tok)
    (h2 : list_accounts env = .ok (a :: rest)) :
    main env =
      ⟨.done ⟨((a :: rest).map (fun x => (wsOf env x).length)).sum,
              ((a :: rest).map (okCount env)).sum,
              ((a :: rest).map (fun x => (wsOf env x).length)).sum
                - ((a :: rest).map (okCount env)).sum⟩,
       HttpCall.getAccounts ::
         (a :: rest).flatMap (fun x =>
           HttpCall.getWebhooks x.id ::
             (wsOf env x).map (fun w => HttpCall.deleteCall w.id)),
       (a :: rest).flatMap (fun x =>
         (list_webhooks env x.id).2 ++
           (wsOf env x).flatMap (fun w => (delete_webhook env w.id).2))⟩ := by
  unfold main; rw [h1, h2]; simp [del_accountLoop_spec]

end DeleteWebhooks

namespace RegisterWebhooks

theorem main_eq_usageError (env : Env)
    (h : ∀ prog url, env.argv ≠ [prog, url]) :
    main env = ⟨.usageError, [], usageLines⟩ := by
  unfold main
  cases henv : env.argv with
  | nil => rfl
  | cons p t =>
    cases t with
    | nil => rfl
    | cons u t2 =>
      cases t2 with
      | nil => exact absurd henv (h p u)
      | cons v t3 => rfl

theorem main_eq_invalidScheme (env : Env) (prog url : String)
    (h0 : env.argv = [prog, url])
    (h1 : startsWithHttpScheme url = false) :
    main env = ⟨.invalidScheme, [],
      ["Error: Webhook URL must start with http:// or https://"]⟩ := by
  unfold main; rw [h0]; simp [h1]

theorem main_eq_invalidNetloc (env : Env) (prog url : String)
    (h0 : env.argv = [prog, url])
    (h1 : startsWithHttpScheme url = true)
    (h2 : netloc url = "") :
    main env = ⟨.invalidNetloc, [], ["Error: Invalid webhook URL format"]⟩ := by
  unfold main; rw [h0]; simp [h1, h2]

theorem reg_main_missingToken (env : Env) (prog url : String) (errs : List String)
    (h0 : env.argv = [prog, url])
    (h1 : startsWithHttpScheme url = true)
    (h2 : netloc url ≠ "")
    (h3 : get_access_token env.token = .error errs) :
    main env = ⟨.missingToken, [], errs⟩ := by
  unfold main; rw [h0]; simp [h1, h2, h3]

theorem reg_main_accountsError (env : Env) (prog url tok : String) (e : Unit)
    (h0 : env.argv = [prog, url])
    (h1 : startsWithHttpScheme url = true)
    (h2 : netloc url ≠ "")
    (h3 : get_access_token env.token = .ok tok)
    (h4 : env.accountsResp = .error e) :
    main env = ⟨.accountsError, [HttpCall.getAccounts], ["Error listing accounts"]⟩ := by
  have h4' : list_accounts env = .error ["Error listing accounts"] := by
    simp [list_accounts, h4]
  unfold main; rw [h0]; simp [h1, h2, h3, h4']

theorem reg_main_noAccounts (env : Env) (prog url tok : String)
    (h0 : env.argv = [prog, url])
    (h1 : startsWithHttpScheme url = true)
    (h2 : netloc url ≠ "")
    (h3 : get_access_token env.token = .ok tok)
    (h4 : list_accounts env = .ok []) :
    main env = ⟨.noAccounts, [HttpCall.getAccounts], []⟩ := by
  unfold main; rw [h0]; simp [h1, h2, h3, h4]

theorem reg_main_done (env : Env) (prog url tok : String) (a : Account) (rest : List Account)
    (h0 : env.argv = [prog, url])
    (h1 : startsWithHttpScheme url = true)
    (h2 : netloc url ≠ "")
    (h3 : get_access_token env.token = .ok tok)
    (h4 : list_accounts env = .ok (a :: rest)) :
    main env =
      ⟨.done ((a :: rest).filter (regOk env url)).length
             ((a :: rest).filter (fun x => !(regOk env url x))).length,
       HttpCall.getAccounts :: (a :: rest).map (fun x => HttpCall.postWebhook x.id url),
       (a :: rest).flatMap (fun x => (register_webhook env x.id url).2)⟩ := by
  unfold main; rw [h0]; simp [h1, h2, h3, h4, reg_accountLoop_spec]

/-- With the credential variable unset or empty, a run of the registration
tool stops in one of the four pre-flight branches: it makes no HTTP call and
exits with status 1 (which of the four it is depends on `argv`). -/
theorem preflight_no_token (env : Env)
    (h : get_access_token env.token = .error tokenRemediation) :
    (main env).calls = [] ∧ (main env).outcome.exitCode = 1 := by
  obtain ⟨argv, token, ar, rr⟩ := env
  simp only [Env.token] at h
  cases argv with
  | nil => simp [main, RunOutcome.exitCode]
  | cons p t =>
    cases t with
    | nil => simp [main, RunOutcome.exitCode]
    | cons u t2 =>
      cases t2 with
      | cons v t3 => simp [main, RunOutcome.exitCode]
      | nil =>
        cases hs : startsWithHttpScheme u with
        | false => simp [main, hs, RunOutcome.exitCode]
        | true =>
          by_cases hn : netloc u = ""
          · simp [main, hs, hn, RunOutcome.exitCode]
          · simp [main, hs, hn, h, RunOutcome.exitCode]

end RegisterWebhooks

/-! ### Claim theorems -/

/-- C1: for every run of the deletion workflow that reaches its summary, the
reported counters satisfy `total_found = deleted + failed`; and for every run
of the registration workflow that reaches its summary,
`registered + failed` equals the number of accounts returned by the account
listing. -/
theorem c1_summary_counters :
    (∀ (denv : DeleteWebhooks.Env) (s : DeleteWebhooks.Summary),
        (DeleteWebhooks.main denv).outcome = .done s →
        s.totalFound = s.deleted + s.failed) ∧
    (∀ (renv : RegisterWebhooks.Env) (accs : List Account) (r f : Nat),
        RegisterWebhooks.list_accounts renv = .ok accs →
        (RegisterWebhooks.main renv).outcome = .done r f →
        r + f = accs.length) := by
  constructor
  · intro denv s h
    cases h1 : get_access_token denv.token with
    | error errs =>
      rw [DeleteWebhooks.del_main_missingToken denv errs h1] at h
      simp at h
    | ok tok =>
      cases h2 : denv.accountsResp with
      | error e =>
        rw [DeleteWebhooks.del_main_accountsError denv tok e h1 h2] at h
        simp at h
      | ok data =>
        have h2' : DeleteWebhooks.list_accounts denv = .ok (data.accounts.getD []) := by
          simp [DeleteWebhooks.list_accounts, h2]
        cases hacc : data.accounts.getD [] with
        | nil =>
          rw [DeleteWebhooks.del_main_noAccounts denv tok h1 (hacc ▸ h2')] at h
          simp at h
        | cons a rest =>
          rw [DeleteWebhooks.del_main_done denv tok a rest h1 (hacc ▸ h2')] at h
          simp only [DeleteWebhooks.RunOutcome.done.injEq] at h
          subst h
          have hs := DeleteWebhooks.total_split denv (a :: rest)
          simp only [DeleteWebhooks.Summary.totalFound, DeleteWebhooks.Summary.deleted,
            DeleteWebhooks.Summary.failed]
          omega
  · intro renv accs r f h1 h2
    obtain ⟨argv, token, ar, rr⟩ := renv
    cases argv with
    | nil =>
      rw [RegisterWebhooks.main_eq_usageError _ (by simp)] at h2
      simp at h2
    | cons p t =>
      cases t with
      | nil =>
        rw [RegisterWebhooks.main_eq_usageError _ (by simp)] at h2
        simp at h2
      | cons u t2 =>
        cases t2 with
        | cons v t3 =>
          rw [RegisterWebhooks.main_eq_usageError _ (by simp)] at h2
          simp at h2
        | nil =>
          cases hs : RegisterWebhooks.startsWithHttpScheme u with
          | false =>
            rw [RegisterWebhooks.main_eq_invalidScheme _ p u rfl hs] at h2
            simp at h2
          | true =>
            by_cases hn : RegisterWebhooks.netloc u = ""
            · rw [RegisterWebhooks.main_eq_invalidNetloc _ p u rfl hs hn] at h2
              simp at h2
            · cases h3 : get_access_token token with
              | error errs =>
                rw [RegisterWebhooks.reg_main_missingToken _ p u errs rfl hs hn h3] at h2
                simp at h2
              | ok tok =>
                cases accs with
                | nil =>
                  rw [RegisterWebhooks.reg_main_noAccounts _ p u tok rfl hs hn h3 h1] at h2
                  simp at h2
                | cons a rest =>
                  rw [RegisterWebhooks.reg_main_done _ p u tok a rest rfl hs hn h3 h1] at h2
                  simp only [RegisterWebhooks.RunOutcome.done.injEq] at h2
                  obtain ⟨hr, hf⟩ := h2
                  rw [← hr, ← hf]
                  exact length_filter_split _ _

/-- A deletion-tool environment whose account listing succeeds and returns an
empty list of accounts. -/
def c2Denv : DeleteWebhooks.Env :=
  ⟨some "tok", .ok ⟨some []⟩, fun _ => .ok ⟨none⟩, fun _ => .ok ()⟩

/-- C2 counterexample: a deletion run whose account listing succeeds with an
empty set of accounts performs no webhook-level work — but terminates
successfully with exit status 0 (`main` prints `No accounts found.` and
returns normally), refuting the claimed non-zero exit. -/
theorem c2_counterexample :
    DeleteWebhooks.list_accounts c2Denv = .ok [] ∧
    (DeleteWebhooks.main c2Denv).calls = [HttpCall.getAccounts] ∧
    (DeleteWebhooks.main c2Denv).outcome.exitCode = 0 :=
  ⟨rfl, rfl, rfl⟩

/-- C2 (amended): for both workflows, if the account listing succeeds but
returns an empty set of accounts, the run stops early — a no-accounts message,
no webhook-level work — yet the process terminates successfully with exit
status zero; only a failing account-listing call exits non-zero. -/
theorem c2_empty_accounts :
    (∀ (denv : DeleteWebhooks.Env) (tok : String),
        get_access_token denv.token = .ok tok →
        DeleteWebhooks.list_accounts denv = .ok [] →
        DeleteWebhooks.main denv = ⟨.noAccounts, [HttpCall.getAccounts], []⟩ ∧
        (DeleteWebhooks.main denv).outcome.exitCode = 0) ∧
    (∀ (renv : RegisterWebhooks.Env) (prog url tok : String),
        renv.argv = [prog, url] →
        RegisterWebhooks.startsWithHttpScheme url = true →
        RegisterWebhooks.netloc url ≠ "" →
        get_access_token renv.token = .ok tok →
        RegisterWebhooks.list_accounts renv = .ok [] →
        RegisterWebhooks.main renv = ⟨.noAccounts, [HttpCall.getAccounts], []⟩ ∧
        (RegisterWebhooks.main renv).outcome.exitCode = 0) := by
  constructor
  · intro denv tok h1 h2
    have := DeleteWebhooks.del_main_noAccounts denv tok h1 h2
    rw [this]
    exact ⟨rfl, rfl⟩
  · intro renv prog url tok h0 h1 h2 h3 h4
    have := RegisterWebhooks.reg_main_noAccounts renv prog url tok h0 h1 h2 h3 h4
    rw [this]
    exact ⟨rfl, rfl⟩

/-- A registration-tool environment whose account listing succeeds and
returns an empty list of accounts. -/
def c2Renv : RegisterWebhooks.Env :=
  ⟨["register_webhooks.py", "https://example.com/webhook"], some "tok",
   .ok ⟨some []⟩, fun _ _ => .ok Json.null⟩

theorem c2_empty_accounts_witness :
    (DeleteWebhooks.main c2Denv = ⟨.noAccounts, [HttpCall.getAccounts], []⟩ ∧
     (DeleteWebhooks.main c2Denv).outcome.exitCode = 0) ∧
    (RegisterWebhooks.main c2Renv = ⟨.noAccounts, [HttpCall.getAccounts], []⟩ ∧
     (RegisterWebhooks.main c2Renv).outcome.exitCode = 0) :=
  ⟨c2_empty_accounts.1 c2Denv "tok" rfl rfl,
   c2_empty_accounts.2 c2Renv "register_webhooks.py" "https://example.com/webhook" "tok"
     rfl (by decide) (by decide) rfl rfl⟩

/-- C3: a command-line URL that does not start with `http://` or `https://`,
or that parses to an empty network location, makes the registration tool exit
non-zero with a validation error before invoking AccountLister or making any
network call. -/
theorem c3_url_validation :
    ∀ (renv : RegisterWebhooks.Env) (prog url : String),
      renv.argv = [prog, url] →
      (RegisterWebhooks.startsWithHttpScheme url = false ∨
        RegisterWebhooks.netloc url = "") →
      (RegisterWebhooks.main renv).calls = [] ∧
      (RegisterWebhooks.main renv).outcome.exitCode = 1 ∧
      ((RegisterWebhooks.main renv).outcome = .invalidScheme ∨
        (RegisterWebhooks.main renv).outcome = .invalidNetloc) := by
  intro renv prog url h0 h
  cases hs : RegisterWebhooks.startsWithHttpScheme url with
  | false =>
    rw [RegisterWebhooks.main_eq_invalidScheme renv prog url h0 hs]
    exact ⟨rfl, rfl, Or.inl rfl⟩
  | true =>
    rcases h with h | h
    · rw [hs] at h; cases h
    · rw [RegisterWebhooks.main_eq_invalidNetloc renv prog url h0 hs h]
      exact ⟨rfl, rfl, Or.inr rfl⟩

/-- Registration-tool environment invoked as
`register_webhooks ftp://x.com/hook`. -/
def c3EnvFtp : RegisterWebhooks.Env :=
  ⟨["register_webhooks.py", "ftp://x.com/hook"], some "tok",
   .ok ⟨some [⟨"acc_1", "Main"⟩]⟩, fun _ _ => .ok Json.null⟩

/-- Registration-tool environment invoked as `register_webhooks https://`
(scheme alone, empty network location). -/
def c3EnvBare : RegisterWebhooks.Env :=
  ⟨["register_webhooks.py", "https://"], some "tok",
   .ok ⟨some [⟨"acc_1", "Main"⟩]⟩, fun _ _ => .ok Json.null⟩

theorem c3_url_validation_witness :
    ((RegisterWebhooks.main c3EnvFtp).calls = [] ∧
     (RegisterWebhooks.main c3EnvFtp).outcome.exitCode = 1 ∧
     ((RegisterWebhooks.main c3EnvFtp).outcome = .invalidScheme ∨
       (RegisterWebhooks.main c3EnvFtp).outcome = .invalidNetloc)) ∧
    ((RegisterWebhooks.main c3EnvBare).calls = [] ∧
     (RegisterWebhooks.main c3EnvBare).outcome.exitCode = 1 ∧
     ((RegisterWebhooks.main c3EnvBare).outcome = .invalidScheme ∨
       (RegisterWebhooks.main c3EnvBare).outcome = .invalidNetloc)) :=
  ⟨c3_url_validation c3EnvFtp "register_webhooks.py" "ftp://x.com/hook" rfl
     (Or.inl (by decide)),
   c3_url_validation c3EnvBare "register_webhooks.py" "https://" rfl
     (Or.inr (by decide))⟩

/-- C4: an account whose webhook listing fails contributes an empty sequence
(after logging), the deletion workflow still reaches its summary, that
account adds zero to the total-found counter, and every remaining account is
still processed (its webhook listing is still requested). -/
theorem c4_listing_failure_nonfatal :
    ∀ (denv : DeleteWebhooks.Env) (tok : String) (pre post : List Account) (a : Account),
      get_access_token denv.token = .ok tok →
      DeleteWebhooks.list_accounts denv = .ok (pre ++ a :: post) →
      denv.webhooksResp a.id = .error () →
      DeleteWebhooks.list_webhooks denv a.id =
        ([], ["Error listing webhooks for account " ++ a.id]) ∧
      (∃ s : DeleteWebhooks.Summary,
        (DeleteWebhooks.main denv).outcome = .done s ∧
        s.totalFound =
          (pre.map (fun x => (DeleteWebhooks.wsOf denv x).length)).sum +
            (post.map (fun x => (DeleteWebhooks.wsOf denv x).length)).sum) ∧
      ∀ b ∈ post, HttpCall.getWebhooks b.id ∈ (DeleteWebhooks.main denv).calls := by
  intro denv tok pre post a h1 h2 h3
  have hlw : DeleteWebhooks.list_webhooks denv a.id =
      ([], ["Error listing webhooks for account " ++ a.id]) := by
    simp [DeleteWebhooks.list_webhooks, h3]
  have hws : DeleteWebhooks.wsOf denv a = [] := by
    simp [DeleteWebhooks.wsOf, hlw]
  cases hl : pre ++ a :: post with
  | nil => exact absurd hl (by simp)
  | cons b rest =>
    have heq := DeleteWebhooks.del_main_done denv tok b rest h1 (hl ▸ h2)
    refine ⟨hlw, ⟨_, by rw [heq], ?_⟩, ?_⟩
    · show ((b :: rest).map (fun x => (DeleteWebhooks.wsOf denv x).length)).sum -- totalFound
        = _
      rw [← hl]
      simp [hws]
    · intro c hc
      rw [heq]
      show HttpCall.getWebhooks c.id ∈ HttpCall.getAccounts :: (b :: rest).flatMap _
      rw [← hl]
      refine List.mem_cons_of_mem _ (List.mem_flatMap.mpr ⟨c, ?_, List.mem_cons_self _ _⟩)
      simp [hc]

/-- Deletion-tool environment with three accounts; the middle account's
webhook listing fails, the others list one webhook each. -/
def c4Env : DeleteWebhooks.Env :=
  ⟨some "tok",
   .ok ⟨some [⟨"acc_a", "A"⟩, ⟨"acc_b", "B"⟩, ⟨"acc_c", "C"⟩]⟩,
   fun account_id =>
     if account_id = "acc_b" then .error ()
     else if account_id = "acc_a" then .ok ⟨some [⟨"wh_a1", "https://a.example/h"⟩]⟩
     else .ok ⟨some [⟨"wh_c1", "https://c.example/h"⟩]⟩,
   fun _ => .ok ()⟩

theorem c4_listing_failure_nonfatal_witness :
    DeleteWebhooks.list_webhooks c4Env (Account.mk "acc_b" "B").id =
      ([], ["Error listing webhooks for account " ++ (Account.mk "acc_b" "B").id]) ∧
    (∃ s : DeleteWebhooks.Summary,
      (DeleteWebhooks.main c4Env).outcome = .done s ∧
      s.totalFound =
        (([⟨"acc_a", "A"⟩] : List Account).map
            (fun x => (DeleteWebhooks.wsOf c4Env x).length)).sum +
          (([⟨"acc_c", "C"⟩] : List Account).map
            (fun x => (DeleteWebhooks.wsOf c4Env x).length)).sum) ∧
    ∀ b ∈ ([⟨"acc_c", "C"⟩] : List Account),
      HttpCall.getWebhooks b.id ∈ (DeleteWebhooks.main c4Env).calls :=
  c4_listing_failure_nonfatal c4Env "tok" [⟨"acc_a", "A"⟩] [⟨"acc_c", "C"⟩]
    ⟨"acc_b", "B"⟩ rfl rfl rfl

/-- C5: a deletion failure never aborts the run — every webhook listed for
every account receives its own DELETE attempt — and the failed counter of the
summary equals exactly the number of individually-failed deletion attempts. -/
theorem c5_deletion_failures_isolated :
    ∀ (denv : DeleteWebhooks.Env) (tok : String) (a : Account) (rest : List Account),
      get_access_token denv.token = .ok tok →
      DeleteWebhooks.list_accounts denv = .ok (a :: rest) →
      ∃ s : DeleteWebhooks.Summary,
        (DeleteWebhooks.main denv).outcome = .done s ∧
        s.failed = ((a :: rest).map (DeleteWebhooks.failCnt denv)).sum ∧
        ∀ b ∈ a :: rest, ∀ w ∈ DeleteWebhooks.wsOf denv b,
          HttpCall.deleteCall w.id ∈ (DeleteWebhooks.main denv).calls := by
  intro denv tok a rest h1 h2
  have heq := DeleteWebhooks.del_main_done denv tok a rest h1 h2
  refine ⟨_, by rw [heq], ?_, ?_⟩
  · show ((a :: rest).map (fun x => (DeleteWebhooks.wsOf denv x).length)).sum -
        ((a :: rest).map (DeleteWebhooks.okCount denv)).sum = _
    have hs := DeleteWebhooks.total_split denv (a :: rest)
    omega
  · intro b hb w hw
    rw [heq]
    refine List.mem_cons_of_mem _ (List.mem_flatMap.mpr ⟨b, hb, ?_⟩)
    exact List.mem_cons_of_mem _ (List.mem_map.mpr ⟨w, hw, rfl⟩)

/-- Deletion-tool environment with one account holding two webhooks; deleting
the first succeeds and deleting the second fails. -/
def c5Env : DeleteWebhooks.Env :=
  ⟨some "tok",
   .ok ⟨some [⟨"acc_a", "A"⟩]⟩,
   fun _ => .ok ⟨some [⟨"wh_1", "https://a.example/1"⟩, ⟨"wh_2", "https://a.example/2"⟩]⟩,
   fun webhook_id => if webhook_id = "wh_2" then .error () else .ok ()⟩

theorem c5_deletion_failures_isolated_witness :
    ∃ s : DeleteWebhooks.Summary,
      (DeleteWebhooks.main c5Env).outcome = .done s ∧
      s.failed =
        (([⟨"acc_a", "A"⟩] : List Account).map (DeleteWebhooks.failCnt c5Env)).sum ∧
      ∀ b ∈ ([⟨"acc_a", "A"⟩] : List Account), ∀ w ∈ DeleteWebhooks.wsOf c5Env b,
        HttpCall.deleteCall w.id ∈ (DeleteWebhooks.main c5Env).calls :=
  c5_deletion_failures_isolated c5Env "tok" ⟨"acc_a", "A"⟩ [] rfl rfl

/-- C6: for both tools, a failing account-listing call (transport error or
non-2xx, i.e. a raised `RequestException`) is fatal — the error is logged,
the process exits with status 1, and no webhook-level call is made (the call
trace is exactly the one GET of the account listing). -/
theorem c6_accounts_failure_fatal :
    ∀ (denv : DeleteWebhooks.Env) (renv : RegisterWebhooks.Env)
      (dtok prog url rtok : String),
      get_access_token denv.token = .ok dtok →
      denv.accountsResp = .error () →
      renv.argv = [prog, url] →
      RegisterWebhooks.startsWithHttpScheme url = true →
      RegisterWebhooks.netloc url ≠ "" →
      get_access_token renv.token = .ok rtok →
      renv.accountsResp = .error () →
      DeleteWebhooks.main denv =
        ⟨.accountsError, [HttpCall.getAccounts], ["Error listing accounts"]⟩ ∧
      (DeleteWebhooks.main denv).outcome.exitCode = 1 ∧
      RegisterWebhooks.main renv =
        ⟨.accountsError, [HttpCall.getAccounts], ["Error listing accounts"]⟩ ∧
      (RegisterWebhooks.main renv).outcome.exitCode = 1 := by
  intro denv renv dtok prog url rtok hd1 hd2 hr0 hr1 hr2 hr3 hr4
  have hd := DeleteWebhooks.del_main_accountsError denv dtok () hd1 hd2
  have hr := RegisterWebhooks.reg_main_accountsError renv prog url rtok () hr0 hr1 hr2 hr3 hr4
  exact ⟨hd, by rw [hd]; rfl, hr, by rw [hr]; rfl⟩

/-- Deletion-tool environment whose account listing raises. -/
def c6Denv : DeleteWebhooks.Env :=
  ⟨some "tok", .error (), fun _ => .ok ⟨none⟩, fun _ => .ok ()⟩

/-- Registration-tool environment whose account listing raises. -/
def c6Renv : RegisterWebhooks.Env :=
  ⟨["register_webhooks.py", "https://example.com/webhook"], some "tok",
   .error (), fun _ _ => .ok Json.null⟩

theorem c6_accounts_failure_fatal_witness :
    DeleteWebhooks.main c6Denv =
      ⟨.accountsError, [HttpCall.getAccounts], ["Error listing accounts"]⟩ ∧
    (DeleteWebhooks.main c6Denv).outcome.exitCode = 1 ∧
    RegisterWebhooks.main c6Renv =
      ⟨.accountsError, [HttpCall.getAccounts], ["Error listing accounts"]⟩ ∧
    (RegisterWebhooks.main c6Renv).outcome.exitCode = 1 :=
  c6_accounts_failure_fatal c6Denv c6Renv "tok" "register_webhooks.py"
    "https://example.com/webhook" "tok" rfl rfl rfl (by decide) (by decide) rfl rfl

/-- Registration tool invoked with no URL argument while the credential
variable is also unset. -/
def c7Renv : RegisterWebhooks.Env :=
  ⟨["register_webhooks.py"], none, .ok ⟨some []⟩, fun _ _ => .ok Json.null⟩

/-- C7 counterexample: an invocation of the registration tool with the
credential variable unset but the wrong argument count exits non-zero without
any HTTP call — but prints the usage text, not the credential remediation
text, refuting the claim that every unset-credential invocation prints the
remediation lines. -/
theorem c7_counterexample :
    c7Renv.token = none ∧
    (RegisterWebhooks.main c7Renv).outcome.exitCode = 1 ∧
    (RegisterWebhooks.main c7Renv).calls = [] ∧
    "Error: MONZO_ACCESS_TOKEN environment variable is not set" ∉
      (RegisterWebhooks.main c7Renv).errLines := by decide

/-- C7 (amended): with the credential variable unset, either tool exits
non-zero and attempts no HTTP call.  The deletion tool always prints the
remediation text; the registration tool prints it whenever the invocation
passes the argument-count and URL checks (otherwise the earlier
usage/validation error is printed instead, still before any HTTP call). -/
theorem c7_missing_credential :
    (∀ denv : DeleteWebhooks.Env, denv.token = none →
        DeleteWebhooks.main denv = ⟨.missingToken, [], tokenRemediation⟩ ∧
        (DeleteWebhooks.main denv).outcome.exitCode = 1 ∧
        (DeleteWebhooks.main denv).calls = []) ∧
    (∀ renv : RegisterWebhooks.Env, renv.token = none →
        (RegisterWebhooks.main renv).calls = [] ∧
        (RegisterWebhooks.main renv).outcome.exitCode = 1 ∧
        (∀ prog url : String, renv.argv = [prog, url] →
          RegisterWebhooks.startsWithHttpScheme url = true →
          RegisterWebhooks.netloc url ≠ "" →
          RegisterWebhooks.main renv = ⟨.missingToken, [], tokenRemediation⟩)) := by
  constructor
  · intro denv h
    have hga : get_access_token denv.token = .error tokenRemediation := by
      rw [h]; rfl
    have heq := DeleteWebhooks.del_main_missingToken denv tokenRemediation hga
    exact ⟨heq, by rw [heq]; rfl, by rw [heq]⟩
  · intro renv h
    have hga : get_access_token renv.token = .error tokenRemediation := by
      rw [h]; rfl
    have hp := RegisterWebhooks.preflight_no_token renv hga
    refine ⟨hp.1, hp.2, ?_⟩
    intro prog url h0 h1 h2
    exact RegisterWebhooks.reg_main_missingToken renv prog url tokenRemediation h0 h1 h2 hga

/-- Deletion tool invoked with the credential variable unset. -/
def c7Denv : DeleteWebhooks.Env :=
  ⟨none, .ok ⟨none⟩, fun _ => .ok ⟨none⟩, fun _ => .ok ()⟩

/-- Registration tool with valid arguments but the credential variable
unset. -/
def c7RenvOk : RegisterWebhooks.Env :=
  ⟨["register_webhooks.py", "https://example.com/webhook"], none,
   .ok ⟨none⟩, fun _ _ => .ok Json.null⟩

theorem c7_missing_credential_witness :
    (DeleteWebhooks.main c7Denv = ⟨.missingToken, [], tokenRemediation⟩ ∧
     (DeleteWebhooks.main c7Denv).outcome.exitCode = 1 ∧
     (DeleteWebhooks.main c7Denv).calls = []) ∧
    ((RegisterWebhooks.main c7RenvOk).calls = [] ∧
     (RegisterWebhooks.main c7RenvOk).outcome.exitCode = 1 ∧
     RegisterWebhooks.main c7RenvOk = ⟨.missingToken, [], tokenRemediation⟩) :=
  ⟨c7_missing_credential.1 c7Denv rfl,
   (c7_missing_credential.2 c7RenvOk rfl).1,
   (c7_missing_credential.2 c7RenvOk rfl).2.1,
   (c7_missing_credential.2 c7RenvOk rfl).2.2 "register_webhooks.py"
     "https://example.com/webhook" rfl (by decide) (by decide)⟩

/-- The parsed body of a successful registration response:
`{"webhook": {"id": "hook_1"}}`. -/
def c8Body : Json :=
  Json.obj [("webhook", Json.obj [("id", Json.str "hook_1")])]

/-- Registration-tool environment whose POST succeeds with `c8Body`. -/
def c8Env : RegisterWebhooks.Env :=
  ⟨["register_webhooks.py", "https://example.com/hook"], some "tok",
   .ok ⟨some [⟨"acc_1", "Main"⟩]⟩, fun _ _ => .ok c8Body⟩

/-- C8 counterexample: on a successful call, `register_webhook` returns the
*entire* parsed response body — a JSON object, not the created webhook's
id — and the id `"hook_1"` is only the `webhook.id` field inside it, which
`main` extracts separately.  The claim that the registrar "returns the
created Webhook's id on success" is therefore false for this run. -/
theorem c8_counterexample :
    (RegisterWebhooks.register_webhook c8Env "acc_1" "https://example.com/hook").1 =
      some c8Body ∧
    Json.getD (Json.getD c8Body "webhook" (Json.obj [])) "id" (Json.str "Unknown") =
      Json.str "hook_1" ∧
    c8Body ≠ Json.str "hook_1" :=
  ⟨rfl, rfl, fun h => Json.noConfusion h⟩

/-- C8 (amended): `register_webhook` returns the parsed JSON response body on
success (the created webhook's id is the `webhook.id` field inside it); on
error it returns `None` after logging the error — and the response body
whenever one is available; and each account's registration is attempted
exactly once, with no retry (one POST per account in the run's call trace). -/
theorem c8_registrar_result :
    (∀ (renv : RegisterWebhooks.Env) (account_id url : String) (body : Json),
        renv.registerResp account_id url = .ok body →
        RegisterWebhooks.register_webhook renv account_id url = (some body, [])) ∧
    (∀ (renv : RegisterWebhooks.Env) (account_id url : String) (e : RegError),
        renv.registerResp account_id url = .error e →
        RegisterWebhooks.register_webhook renv account_id url =
          (none,
           ("Error registering webhook for account " ++ account_id) ::
             (match e.responseText with
              | some t => ["Response: " ++ t]
              | none => []))) ∧
    (∀ (renv : RegisterWebhooks.Env) (prog url tok : String) (a : Account)
        (rest : List Account),
        renv.argv = [prog, url] →
        RegisterWebhooks.startsWithHttpScheme url = true →
        RegisterWebhooks.netloc url ≠ "" →
        get_access_token renv.token = .ok tok →
        RegisterWebhooks.list_accounts renv = .ok (a :: rest) →
        (RegisterWebhooks.main renv).calls =
          HttpCall.getAccounts ::
            (a :: rest).map (fun x => HttpCall.postWebhook x.id url)) := by
  refine ⟨?_, ?_, ?_⟩
  · intro renv account_id url body h
    simp [RegisterWebhooks.register_webhook, h]
  · intro renv account_id url e h
    simp [RegisterWebhooks.register_webhook, h]
  · intro renv prog url tok a rest h0 h1 h2 h3 h4
    rw [RegisterWebhooks.reg_main_done renv prog url tok a rest h0 h1 h2 h3 h4]

/-- Registration-tool environment whose POST raises with a response body
attached (`e.response.text = "bad request"`). -/
def c8ErrEnv : RegisterWebhooks.Env :=
  ⟨["register_webhooks.py", "https://example.com/hook"], some "tok",
   .ok ⟨some [⟨"acc_1", "Main"⟩]⟩, fun _ _ => .error ⟨some "bad request"⟩⟩

theorem c8_registrar_result_witness :
    RegisterWebhooks.register_webhook c8Env "acc_1" "https://example.com/hook" =
      (some c8Body, []) ∧
    RegisterWebhooks.register_webhook c8ErrEnv "acc_1" "https://example.com/hook" =
      (none, ["Error registering webhook for account acc_1", "Response: bad request"]) ∧
    (RegisterWebhooks.main c8Env).calls =
      [HttpCall.getAccounts, HttpCall.postWebhook "acc_1" "https://example.com/hook"] :=
  ⟨c8_registrar_result.1 c8Env "acc_1" "https://example.com/hook" c8Body rfl,
   c8_registrar_result.2.1 c8ErrEnv "acc_1" "https://example.com/hook"
     ⟨some "bad request"⟩ rfl,
   by
     rw [c8_registrar_result.2.2 c8Env "register_webhooks.py" "https://example.com/hook"
       "tok" ⟨"acc_1", "Main"⟩ [] rfl (by decide) (by decide) rfl rfl]
     rfl⟩

/-- C9: a credential variable set to the empty string is treated exactly like
a missing credential — the two runs are identical for every environment and
both tools; in particular the deletion tool prints the remediation text and
exits 1, and neither tool issues any HTTP call (so the empty string is never
used as a bearer token). -/
theorem c9_empty_token_like_missing :
    (∀ (ar : Except Unit AccountsResponse) (wr : String → Except Unit WebhooksResponse)
        (dr : String → Except Unit Unit),
        DeleteWebhooks.main ⟨some "", ar, wr, dr⟩ = DeleteWebhooks.main ⟨none, ar, wr, dr⟩ ∧
        DeleteWebhooks.main ⟨some "", ar, wr, dr⟩ = ⟨.missingToken, [], tokenRemediation⟩ ∧
        (DeleteWebhooks.main ⟨some "", ar, wr, dr⟩).calls = [] ∧
        (DeleteWebhooks.main ⟨some "", ar, wr, dr⟩).outcome.exitCode = 1) ∧
    (∀ (argv : List String) (ar : Except Unit AccountsResponse)
        (rr : String → String → Except RegError Json),
        RegisterWebhooks.main ⟨argv, some "", ar, rr⟩ =
          RegisterWebhooks.main ⟨argv, none, ar, rr⟩ ∧
        (RegisterWebhooks.main ⟨argv, some "", ar, rr⟩).calls = [] ∧
        (RegisterWebhooks.main ⟨argv, some "", ar, rr⟩).outcome.exitCode = 1) := by
  constructor
  · intro ar wr dr
    exact ⟨rfl, rfl, rfl, rfl⟩
  · intro argv ar rr
    cases argv with
    | nil => exact ⟨rfl, rfl, rfl⟩
    | cons p t =>
      cases t with
      | nil => exact ⟨rfl, rfl, rfl⟩
      | cons u t2 =>
        cases t2 with
        | cons v t3 => exact ⟨rfl, rfl, rfl⟩
        | nil =>
          cases hs : RegisterWebhooks.startsWithHttpScheme u with
          | false =>
            rw [RegisterWebhooks.main_eq_invalidScheme ⟨[p, u], some "", ar, rr⟩ p u rfl hs,
                RegisterWebhooks.main_eq_invalidScheme ⟨[p, u], none, ar, rr⟩ p u rfl hs]
            exact ⟨rfl, rfl, rfl⟩
          | true =>
            by_cases hn : RegisterWebhooks.netloc u = ""
            · rw [RegisterWebhooks.main_eq_invalidNetloc ⟨[p, u], some "", ar, rr⟩ p u rfl hs hn,
                  RegisterWebhooks.main_eq_invalidNetloc ⟨[p, u], none, ar, rr⟩ p u rfl hs hn]
              exact ⟨rfl, rfl, rfl⟩
            · rw [RegisterWebhooks.reg_main_missingToken ⟨[p, u], some "", ar, rr⟩ p u
                    tokenRemediation rfl hs hn rfl,
                  RegisterWebhooks.reg_main_missingToken ⟨[p, u], none, ar, rr⟩ p u
                    tokenRemediation rfl hs hn rfl]
              exact ⟨rfl, rfl, rfl⟩

/-- C10: in the registration workflow, an account is counted as registered
exactly when its HTTP call succeeded (2xx) and the parsed response body is
truthy; every other account — including one whose 2xx response parsed to a
falsy body such as `{}` — is counted as failed. -/
theorem c10_registered_iff_truthy :
    ∀ (renv : RegisterWebhooks.Env) (prog url tok : String) (a : Account)
      (rest : List Account),
      renv.argv = [prog, url] →
      RegisterWebhooks.startsWithHttpScheme url = true →
      RegisterWebhooks.netloc url ≠ "" →
      get_access_token renv.token = .ok tok →
      RegisterWebhooks.list_accounts renv = .ok (a :: rest) →
      (RegisterWebhooks.main renv).outcome =
        .done ((a :: rest).filter (RegisterWebhooks.regOk renv url)).length
              ((a :: rest).filter (fun x => !(RegisterWebhooks.regOk renv url x))).length ∧
      ∀ x : Account,
        RegisterWebhooks.regOk renv url x = true ↔
          ∃ body : Json, renv.registerResp x.id url = .ok body ∧ body.truthy = true := by
  intro renv prog url tok a rest h0 h1 h2 h3 h4
  constructor
  · rw [RegisterWebhooks.reg_main_done renv prog url tok a rest h0 h1 h2 h3 h4]
  · intro x
    cases hr : renv.registerResp x.id url with
    | ok body =>
      simp [RegisterWebhooks.regOk, RegisterWebhooks.register_webhook,
        RegisterWebhooks.optTruthy, hr]
    | error e =>
      simp [RegisterWebhooks.regOk, RegisterWebhooks.register_webhook,
        RegisterWebhooks.optTruthy, hr]

/-- Registration-tool environment with two accounts: the first account's POST
succeeds with a truthy body carrying the webhook id, the second account's
POST succeeds (2xx) but its body parses to the empty object `{}`. -/
def c10Env : RegisterWebhooks.Env :=
  ⟨["register_webhooks.py", "https://example.com/webhook"], some "tok",
   .ok ⟨some [⟨"acc_1", "A"⟩, ⟨"acc_2", "B"⟩]⟩,
   fun account_id _ =>
     if account_id = "acc_1" then
       .ok (Json.obj [("webhook", Json.obj [("id", Json.str "wh_1")])])
     else .ok (Json.obj [])⟩

theorem c10_registered_iff_truthy_witness :
    (RegisterWebhooks.main c10Env).outcome = .done 1 1 ∧
    c10Env.registerResp "acc_2" "https://example.com/webhook" = .ok (Json.obj []) ∧
    (Json.obj []).truthy = false := by
  refine ⟨?_, rfl, rfl⟩
  rw [(c10_registered_iff_truthy c10Env "register_webhooks.py"
        "https://example.com/webhook" "tok" ⟨"acc_1", "A"⟩ [⟨"acc_2", "B"⟩]
        rfl (by decide) (by decide) rfl rfl).1]
  decide

/-- Deletion-tool environment with one account holding one webhook whose
deletion succeeds. -/
def c1Denv : DeleteWebhooks.Env :=
  ⟨some "tok", .ok ⟨some [⟨"acc_1", "Main"⟩]⟩,
   fun _ => .ok ⟨some [⟨"wh_1", "https://e.example/h"⟩]⟩, fun _ => .ok ()⟩

/-- Registration-tool environment with two accounts: the first registration
succeeds, the second raises. -/
def c1Renv : RegisterWebhooks.Env :=
  ⟨["register_webhooks.py", "https://example.com/webhook"], some "tok",
   .ok ⟨some [⟨"acc_1", "Main"⟩, ⟨"acc_2", "Joint"⟩]⟩,
   fun account_id _ =>
     if account_id = "acc_1" then
       .ok (Json.obj [("webhook", Json.obj [("id", Json.str "w1")])])
     else .error ⟨none⟩⟩

theorem c1_summary_counters_witness :
    ((DeleteWebhooks.main c1Denv).outcome = .done ⟨1, 1, 0⟩ ∧ (1 : Nat) = 1 + 0) ∧
    (RegisterWebhooks.list_accounts c1Renv =
        .ok [⟨"acc_1", "Main"⟩, ⟨"acc_2", "Joint"⟩] ∧
     (RegisterWebhooks.main c1Renv).outcome = .done 1 1 ∧
     (1 : Nat) + 1 =
       ([⟨"acc_1", "Main"⟩, ⟨"acc_2", "Joint"⟩] : List Account).length) :=
  ⟨⟨by decide, c1_summary_counters.1 c1Denv ⟨1, 1, 0⟩ (by decide)⟩,
   rfl, by decide,
   c1_summary_counters.2 c1Renv [⟨"acc_1", "Main"⟩, ⟨"acc_2", "Joint"⟩] 1 1 rfl (by decide)⟩

theorem c9_empty_token_like_missing_witness :
    DeleteWebhooks.main ⟨some "", .ok ⟨none⟩, fun _ => .ok ⟨none⟩, fun _ => .ok ()⟩ =
      DeleteWebhooks.main ⟨none, .ok ⟨none⟩, fun _ => .ok ⟨none⟩, fun _ => .ok ()⟩ ∧
    (RegisterWebhooks.main ⟨["register_webhooks.py", "https://example.com/webhook"],
        some "", .ok ⟨none⟩, fun _ _ => .ok Json.null⟩).calls = [] :=
  ⟨(c9_empty_token_like_missing.1 (.ok ⟨none⟩) (fun _ => .ok ⟨none⟩) (fun _ => .ok ())).1,
   (c9_empty_token_like_missing.2 ["register_webhooks.py", "https://example.com/webhook"]
      (.ok ⟨none⟩) (fun _ _ => .ok Json.null)).2.1⟩
